import Mathlib

/-!
Shallow embedding of the movingpay_gueno_integration pipeline
(exportar_arquivos.py, exportar_transacoes.py, importar_arquivos.py,
importar_transacoes.py, main.py) together with proofs about the claims
of the specification.

Paths are represented by their list of components (the result of
splitting the path string on the separator character). All path
functions below mirror the CPython posixpath implementations used by
the scripts (os.path.isabs, os.path.normpath, os.path.basename,
os.path.join) in this component representation.
-/

namespace MovingpayGueno


/-! ### Python string primitives (ASCII, as used on the file names here) -/

/-- Python str.lower restricted to ASCII, as applied to file names. -/
def pyLower (s : String) : String := ⟨s.data.map Char.toLower⟩


/-- Python str.endswith: the suffix characters close the string. -/
def pyEndsWith (s suffix : String) : Bool := suffix.data.isSuffixOf s.data


/-- Python str.startswith. -/
def pyStartsWith (s pre : String) : Bool := pre.data.isPrefixOf s.data


/-! ### posixpath functions on component lists -/

/-- Last path component: os.path.basename of the joined path. -/
def lastSeg : List String → String
  | [] => ""
  | [s] => s
  | _ :: rest => lastSeg rest


/-- os.path.isabs on the component representation: the path string
starts with the separator exactly when the first component is empty
and at least one further component exists. -/
def isAbsName (segs : List String) : Bool :=
  match segs with
  | "" :: _ :: _ => true
  | _ => false


/-- Number of initial separators distinguished by posixpath.normpath:
1 for a single leading slash or three and more, 2 for exactly two. -/
def initialSlashesOf (segs : List String) : Nat :=
  match segs with
  | [""] => 0
  | "" :: [""] => 1
  | "" :: "" :: [""] => 2
  | "" :: "" :: "" :: _ => 1
  | "" :: "" :: _ => 2
  | "" :: _ => 1
  | _ => 0


/-- The component loop of posixpath.normpath: drop empty and dot
components, collapse dot-dot against a previous component when the
path is relative at that point. The accumulator holds the output
components in reverse. -/
def normLoop (hasSlashes : Bool) : List String → List String → List String
  | [], acc => acc.reverse
  | c :: rest, acc =>
    if c == "" || c == "." then
      normLoop hasSlashes rest acc
    else if c != ".." || (!hasSlashes && acc.isEmpty) || acc.headD "" == ".." then
      normLoop hasSlashes rest (c :: acc)
    else
      match acc with
      | [] => normLoop hasSlashes rest []
      | _ :: accTail => normLoop hasSlashes rest accTail


/-- os.path.normpath(p).split(os.sep) on the component representation:
the components of the normalized path string. An empty input path
normalizes to the dot path; a pure-slash result splits into empty
components. -/
def normpathSplit (segs : List String) : List String :=
  if segs == [""] then ["."]
  else
    let k := initialSlashesOf segs
    let newComps := normLoop (k != 0) segs []
    if newComps.isEmpty then
      if k == 0 then ["."] else List.replicate (k + 1) ""
    else
      List.replicate k "" ++ newComps


/-- os.path.join of a directory and a file name (posix rules). -/
def pathJoin (dir b : String) : String :=
  if pyStartsWith b "/" then b
  else if dir == "" || pyEndsWith dir "/" then dir ++ b
  else dir ++ "/" ++ b


/-! ### Archive extraction state (extrair_e_limpar of exportar_arquivos.py) -/

/-- A tar archive member: its name split into components, and its data. -/
structure Member where
  name : List String
  content : String
deriving DecidableEq


/-- A file living directly in a staging directory. -/
structure FileEntry where
  name : String
  content : String
deriving DecidableEq


/-- Contents of one staging directory (flat: names against data). -/
abbrev DirState := List FileEntry


/-- The check f.lower().endswith(".csv") used both on directory
listings and on member names (for a member name, the whole joined
string ends with the extension exactly when its last component does,
because the extension contains no separator). -/
def isCsvName (s : String) : Bool := pyEndsWith (pyLower s) ".csv"


/-- Deletion of every pre-existing file of the target extension in
the destination directory, performed before extraction. -/
def purgeCsv (dir : DirState) : DirState :=
  dir.filter fun f => !(isCsvName f.name)


/-- Writing a file in binary mode: an existing entry of the same name
is replaced. -/
def writeFile (dir : DirState) (name content : String) : DirState :=
  (dir.filter fun f => !(f.name == name)) ++ [⟨name, content⟩]


/-- The files of the target extension currently in a directory. -/
def csvEntries (dir : DirState) : DirState :=
  dir.filter fun f => isCsvName f.name


/-- Error kinds of the export scripts. -/
inductive PErr
  | httpStatus (code : Nat)
  | network
  | noS3Url
  | artifactNotFound (kind : String)
  | noValidPayload
deriving DecidableEq


/-- The member filter of extrair_e_limpar: name ends in the target
extension, is not absolute, and its normalized form has no
parent-directory component. -/
def safeCsvMember (m : Member) : Bool :=
  isCsvName (lastSeg m.name) && !(isAbsName m.name)
    && !((normpathSplit m.name).contains "..")


/-- The candidate members of an archive, in archive order. -/
def safeCsvMembers (archive : List Member) : List Member :=
  archive.filter safeCsvMember


/-- Outcome of extrair_e_limpar: the raised error if any, the final
directory contents, whether the downloaded archive file was removed,
and the full paths of the files written. -/
structure ExtractResult where
  result : Except PErr Unit
  dir : DirState
  tarRemoved : Bool
  written : List String


/-- extrair_e_limpar of exportar_arquivos.py: purge old files of the
target extension, then pick the first safe member of the archive and
stream it to the destination under its base name; raise when no safe
member exists (leaving the archive file in place); remove the archive
file after a successful extraction. -/
def extrair_e_limpar (destino : String) (archive : List Member) (dir : DirState) :
    ExtractResult :=
  let purged := purgeCsv dir
  match safeCsvMembers archive with
  | [] => ⟨.error .noValidPayload, purged, false, []⟩
  | m :: _ =>
    let base := lastSeg m.name
    ⟨.ok (), writeFile purged base m.content, true, [pathJoin destino base]⟩


/-! ### Reference window (obter_datas_referencia, both export scripts) -/

/-- Python date.weekday on a proleptic-Gregorian ordinal (ordinal 1 is
a Monday and maps to weekday 0). -/
def pyWeekday (ordinal : Int) : Int := (ordinal + 6) % 7


/-- obter_datas_referencia: on a Monday the window spans the three
previous days, otherwise it is exactly yesterday. Dates are ordinals. -/
def obter_datas_referencia (hoje : Int) : Int × Int :=
  if pyWeekday hoje = 0 then (hoje - 3, hoje - 1) else (hoje - 1, hoje - 1)


/-! ### Helper lemmas about the extractor -/

/-- A member name made of genuine path components: no component holds
a separator character (every list produced by splitting a real path
string on the separator has this shape). -/
def validMember (m : Member) : Prop := ∀ s ∈ m.name, ('/' : Char) ∉ s.data


instance (m : Member) : Decidable (validMember m) :=
  inferInstanceAs (Decidable (∀ s ∈ m.name, ('/' : Char) ∉ s.data))


/-- A path that stays directly inside the given directory: the
directory, a separator, and a plain base name. -/
def insideDir (destino p : String) : Prop :=
  ∃ b, p = destino ++ "/" ++ b ∧ ('/' : Char) ∉ b.data
    ∧ b ≠ "" ∧ b ≠ "." ∧ b ≠ ".."


/-! ### Resilient HTTP client (request_get / request_post with tenacity)

An attempt either times out, fails to connect, or yields a response
with a status code; raise_for_status inside the wrapper turns a 4xx or
5xx response into an HTTPError. Timeout, ConnectionError and HTTPError
all subclass requests.exceptions.RequestException, which is exactly
the class the retry decorator retries on. -/

/-- What the network does on one attempt. -/
inductive NetOutcome
  | timeout
  | connectionFailure
  | response (status : Nat)
deriving DecidableEq


/-- The exception kinds a wrapped request can raise. -/
inductive ReqError
  | timeoutExc
  | connectionExc
  | httpError (status : Nat)
deriving DecidableEq


/-- isinstance check of retry_if_exception_type(RequestException):
Timeout, ConnectionError and HTTPError are all RequestException
subclasses, so every modeled error matches. -/
def isRequestException : ReqError → Bool := fun _ => true


/-- requests.Response.raise_for_status: raises HTTPError exactly for
status codes 400 through 599. -/
def raise_for_status_resp (s : Nat) : Except ReqError Nat :=
  if 400 ≤ s ∧ s < 600 then .error (.httpError s) else .ok s


/-- One attempt of the request_get / request_post body. -/
def attemptRequest (o : NetOutcome) : Except ReqError Nat :=
  match o with
  | .timeout => .error .timeoutExc
  | .connectionFailure => .error .connectionExc
  | .response s => raise_for_status_resp s


/-- What propagates out of the decorated function: either the
exception itself (when the retry predicate rejects it) or the
RetryError tenacity raises once stop_after_attempt is reached,
carrying the last exception. -/
inductive FinalError
  | raised (e : ReqError)
  | retryExhausted (lastExc : ReqError)
deriving DecidableEq


/-- Result of a call through the decorated wrapper: outcome, number of
attempts performed, and the total fixed-wait time slept. -/
structure RetryOutcome where
  result : Except FinalError Nat
  attempts : Nat
  totalWait : Nat


/-- The retry decorator with stop_after_attempt(3), wait_fixed(5) and
retry_if_exception_type(RequestException), unrolled over its at most
three attempts; the n-th attempt sees the n-th network outcome. -/
def requestWithRetry (o : Nat → NetOutcome) : RetryOutcome :=
  match attemptRequest (o 0) with
  | .ok s => ⟨.ok s, 1, 0⟩
  | .error e1 =>
    if isRequestException e1 then
      match attemptRequest (o 1) with
      | .ok s => ⟨.ok s, 2, 5⟩
      | .error e2 =>
        if isRequestException e2 then
          match attemptRequest (o 2) with
          | .ok s => ⟨.ok s, 3, 10⟩
          | .error e3 =>
            if isRequestException e3 then ⟨.error (.retryExhausted e3), 3, 10⟩
            else ⟨.error (.raised e3), 3, 10⟩
        else ⟨.error (.raised e2), 2, 5⟩
    else ⟨.error (.raised e1), 1, 0⟩


/-- A bare requests.get or requests.post followed by
raise_for_status, as exportar_transacoes.py performs them: one single
attempt, no decorator. -/
def plainRequestCall (o : Nat → NetOutcome) : RetryOutcome :=
  match attemptRequest (o 0) with
  | .ok s => ⟨.ok s, 1, 0⟩
  | .error e => ⟨.error (.raised e), 1, 0⟩


/-! ### Startup credential check (module level of the import scripts
and of exportar_arquivos.py) -/

/-- Python truth test "not os.getenv(var)": the variable is absent or
holds the empty string. -/
def isMissingVar (v : Option String) : Bool :=
  match v with
  | none => true
  | some s => s == ""


/-- The module-level loop raising EnvironmentError on the first
required variable that is unset. -/
def checkVars (required : List String) (vars : String → Option String) :
    Except String Unit :=
  match required.find? (fun v => isMissingVar (vars v)) with
  | some v => .error v
  | none => .ok ()


/-- Required credentials of the Gueno import scripts. -/
def guenoRequiredVars : List String :=
  ["GUENO_EMAIL", "GUENO_PASSWORD", "GUENO_CLIENT_KEY"]


/-- Required credentials checked by exportar_arquivos.py. -/
def movingpayRequiredVars : List String :=
  ["MOVINGPAY_EMAIL", "MOVINGPAY_PASSWORD"]


/-! ### importar_arquivos.py -/

/-- One entry of the recent-imports listing of the destination
platform; mId embeds the untyped field named underscore-id. -/
structure ImportItem where
  originalName : String
  mId : String
deriving DecidableEq


/-- Error kinds of the import scripts. -/
inductive IErr
  | httpStatus (code : Nat)
  | network
  | valueError
  | missingUpload (name : String)
  | fileNotFound
deriving DecidableEq


/-- The network-visible operations of the import stage. -/
inductive ICall
  | loginCall
  | uploadCall (tipo : String)
  | listCall
  | verifyCall
deriving DecidableEq


/-- Resolved interactions of one run of importar_arquivos.py: each
field is the outcome of the corresponding HTTP operation after its
retry wrapper, plus the filesystem facts the script reads. Paths are
component lists; csvFiles is already sorted newest first, as the
script sorts it. -/
structure ImportEnv where
  vars : String → Option String
  exportDirExists : Bool
  csvFiles : List (List String)
  login : Except IErr Unit
  postUsers : Except IErr Nat
  postTransactions : Except IErr Nat
  listing : Except IErr (List ImportItem)
  postVerify : Except IErr Nat


/-- The newest data file among the sorted candidates (csv_files[0]). -/
def primeiroCsv (files : List (List String)) : List String := files.headD []


/-- raise_for_status over the import error kind. -/
def raise_for_status_imp (s : Nat) : Except IErr Unit :=
  if 400 ≤ s ∧ s < 600 then .error (.httpStatus s) else .ok ()


/-- enviar_arquivo_gueno: reject an unknown kind, perform the upload,
report success on 200 or 201, otherwise log and raise_for_status. -/
def enviar_arquivo_gueno (tipo : String) (post : Except IErr Nat) :
    Except IErr Unit :=
  if !(["transactions", "users"].contains tipo) then .error .valueError
  else
    match post with
    | .error e => .error e
    | .ok s => if s = 200 ∨ s = 201 then .ok () else raise_for_status_imp s


/-- obter_item_id_gueno: fetch the recent-imports page and return the
id of the first item whose originalName equals the uploaded file
name, raising when none matches. -/
def obter_item_id_gueno (nome : String)
    (listing : Except IErr (List ImportItem)) : Except IErr String :=
  match listing with
  | .error e => .error e
  | .ok items =>
    match items.find? (fun it => it.originalName == nome) with
    | some it => .ok it.mId
    | none => .error (.missingUpload nome)


/-- processar_arquivo_gueno: trigger verification, accept 200 or 201,
otherwise log and raise_for_status. -/
def processar_arquivo_gueno (post : Except IErr Nat) : Except IErr Unit :=
  match post with
  | .error e => .error e
  | .ok s => if s = 200 ∨ s = 201 then .ok () else raise_for_status_imp s


/-- Terminal states of one run of the importar_arquivos.py main
function; every aborted state is reached through a caught and logged
exception, so the process still exits normally. -/
inductive IResult
  | done
  | noDir
  | abortedOuter (e : IErr)
  | abortedFicha (e : IErr)
  | abortedCaptura (e : IErr)
  | startupError (v : String)
deriving DecidableEq


/-- main of importar_arquivos.py: find the two newest extracted data
files, authenticate, upload the reference file, and only on its
success upload the transactional file, look its import item up and
trigger its processing. The call list records each HTTP operation
performed. -/
def importar_arquivos_main (env : ImportEnv) : IResult × List ICall :=
  if env.exportDirExists = false then (.noDir, [])
  else if env.csvFiles.length < 2 then (.abortedOuter .fileNotFound, [])
  else
    let nomeCaptura := lastSeg (primeiroCsv env.csvFiles)
    match env.login with
    | .error e => (.abortedOuter e, [.loginCall])
    | .ok () =>
      match enviar_arquivo_gueno "users" env.postUsers with
      | .error e => (.abortedFicha e, [.loginCall, .uploadCall "users"])
      | .ok () =>
        match enviar_arquivo_gueno "transactions" env.postTransactions with
        | .error e =>
          (.abortedCaptura e,
            [.loginCall, .uploadCall "users", .uploadCall "transactions"])
        | .ok () =>
          match obter_item_id_gueno nomeCaptura env.listing with
          | .error e =>
            (.abortedCaptura e,
              [.loginCall, .uploadCall "users", .uploadCall "transactions",
                .listCall])
          | .ok _ =>
            match processar_arquivo_gueno env.postVerify with
            | .error e =>
              (.abortedCaptura e,
                [.loginCall, .uploadCall "users", .uploadCall "transactions",
                  .listCall, .verifyCall])
            | .ok () =>
              (.done,
                [.loginCall, .uploadCall "users", .uploadCall "transactions",
                  .listCall, .verifyCall])


/-- The whole importar_arquivos.py process: the module-level
credential check runs before main, and its failure is an uncaught
EnvironmentError, before any HTTP call. -/
def importar_arquivos_stage (env : ImportEnv) : IResult × List ICall :=
  match checkVars guenoRequiredVars env.vars with
  | .error v => (.startupError v, [])
  | .ok () => importar_arquivos_main env


/-! ### exportar_arquivos.py (dual-artifact export flow) -/

/-- The destination subdirectories of the dual flow. -/
def FICHA_CADASTRAL_DIR : String := "exportacoes/ficha_cadastral"


/-- Destination subdirectory of the capture reports. -/
def CAPTURAS_DIR : String := "exportacoes/capturas"


/-- A listing entry selected by buscar_arquivo_compativel. -/
structure Artifact where
  arquivo : String
  id : Nat
deriving DecidableEq


/-- Resolved interactions of one run of exportar_arquivos.py. Each
buscar field is the Option returned by buscar_arquivo_compativel
(none when no listing entry matches); each baixar field resolves the
download to the members of the fetched archive. -/
structure ExpEnv where
  vars : String → Option String
  auth : Except PErr Unit
  solicitarFicha : Except PErr Unit
  solicitarCapturas : Except PErr Unit
  buscarFicha : Except PErr (Option Artifact)
  buscarCapturas : Except PErr (Option Artifact)
  baixarFicha : Except PErr (List Member)
  baixarCapturas : Except PErr (List Member)
  fichaDir : DirState
  capturasDir : DirState


/-- Steps and log events of the dual-flow pipeline, in order. -/
inductive ECall
  | authC
  | solicFichaC
  | solicCapturasC
  | buscarFichaC
  | baixarFichaC
  | extrairFichaC
  | warnFichaMissingC
  | buscarCapturasC
  | baixarCapturasC
  | extrairCapturasC
deriving DecidableEq


/-- Terminal state of the dual-flow main: completed, or an exception
caught and logged at critical severity by the top-level handler, or
the uncaught module-level credential failure. -/
inductive ExpResult
  | completed
  | failed (e : PErr)
  | startupError (v : String)
deriving DecidableEq


/-- Outcome of one run of the dual flow. -/
structure ExpOutcome where
  result : ExpResult
  calls : List ECall
  fichaDir : DirState
  capturasDir : DirState


/-- The capture branch of main: locate the capture artifact; its
absence raises (fatal); otherwise download and extract into the
capture directory. -/
def exportCapturasBranch (env : ExpEnv) (t : List ECall) (fichaDir : DirState) :
    ExpOutcome :=
  match env.buscarCapturas with
  | .error e => ⟨.failed e, t ++ [.buscarCapturasC], fichaDir, env.capturasDir⟩
  | .ok none =>
    ⟨.failed (.artifactNotFound "capturas"), t ++ [.buscarCapturasC],
      fichaDir, env.capturasDir⟩
  | .ok (some _) =>
    match env.baixarCapturas with
    | .error e =>
      ⟨.failed e, t ++ [.buscarCapturasC, .baixarCapturasC],
        fichaDir, env.capturasDir⟩
    | .ok archive =>
      let r := extrair_e_limpar CAPTURAS_DIR archive env.capturasDir
      match r.result with
      | .error e =>
        ⟨.failed e, t ++ [.buscarCapturasC, .baixarCapturasC, .extrairCapturasC],
          fichaDir, r.dir⟩
      | .ok () =>
        ⟨.completed, t ++ [.buscarCapturasC, .baixarCapturasC, .extrairCapturasC],
          fichaDir, r.dir⟩


/-- main of exportar_arquivos.py: authenticate, request both reports,
wait, then handle the registration artifact (absence only warns) and
the capture artifact (absence raises); every raise lands in the
top-level handler which logs it at critical severity. -/
def exportar_arquivos_main (env : ExpEnv) : ExpOutcome :=
  match env.auth with
  | .error e => ⟨.failed e, [.authC], env.fichaDir, env.capturasDir⟩
  | .ok () =>
    match env.solicitarFicha with
    | .error e => ⟨.failed e, [.authC, .solicFichaC], env.fichaDir, env.capturasDir⟩
    | .ok () =>
      match env.solicitarCapturas with
      | .error e =>
        ⟨.failed e, [.authC, .solicFichaC, .solicCapturasC],
          env.fichaDir, env.capturasDir⟩
      | .ok () =>
        match env.buscarFicha with
        | .error e =>
          ⟨.failed e, [.authC, .solicFichaC, .solicCapturasC, .buscarFichaC],
            env.fichaDir, env.capturasDir⟩
        | .ok none =>
          exportCapturasBranch env
            [.authC, .solicFichaC, .solicCapturasC, .buscarFichaC,
              .warnFichaMissingC] env.fichaDir
        | .ok (some _) =>
          match env.baixarFicha with
          | .error e =>
            ⟨.failed e,
              [.authC, .solicFichaC, .solicCapturasC, .buscarFichaC,
                .baixarFichaC], env.fichaDir, env.capturasDir⟩
          | .ok archive =>
            let r := extrair_e_limpar FICHA_CADASTRAL_DIR archive env.fichaDir
            match r.result with
            | .error e =>
              ⟨.failed e,
                [.authC, .solicFichaC, .solicCapturasC, .buscarFichaC,
                  .baixarFichaC, .extrairFichaC], r.dir, env.capturasDir⟩
            | .ok () =>
              exportCapturasBranch env
                [.authC, .solicFichaC, .solicCapturasC, .buscarFichaC,
                  .baixarFichaC, .extrairFichaC] r.dir


/-- The whole exportar_arquivos.py process: module-level credential
check first, its failure being an uncaught EnvironmentError before any
HTTP call. -/
def exportar_arquivos_stage (env : ExpEnv) : ExpOutcome :=
  match checkVars movingpayRequiredVars env.vars with
  | .error v => ⟨.startupError v, [], env.fichaDir, env.capturasDir⟩
  | .ok () => exportar_arquivos_main env


/-- The registration branch ran to completion: its artifact was
absent, or it was downloaded and extracted without raising. -/
def fichaBranchOk (env : ExpEnv) : Prop :=
  env.buscarFicha = .ok none
  ∨ (∃ a archive, env.buscarFicha = .ok (some a)
      ∧ env.baixarFicha = .ok archive
      ∧ (extrair_e_limpar FICHA_CADASTRAL_DIR archive env.fichaDir).result = .ok ())


/-! ### exportar_transacoes.py (single-file export flow)

This script performs no module-level credential check: autenticar
reads MOVINGPAY_EMAIL and MOVINGPAY_PASSWORD with os.getenv inside the
login payload and posts it whatever their values, with plain requests
calls and no retry decorator. -/

/-- Resolved interactions of one run of exportar_transacoes.py. -/
structure TransEnv where
  vars : String → Option String
  login : Except PErr Unit
  solicitar : Except PErr Unit
  buscar : Except PErr (Option Artifact)
  baixar : Except PErr Unit
  extrairBulk : Except PErr Unit


/-- HTTP operations of the single-file flow; the login call records
the credential value actually placed in the payload. -/
inductive TCall
  | tLoginC (email : Option String)
  | tSolicitarC
  | tBuscarC
  | tBaixarC
deriving DecidableEq


/-- The body of main in exportar_transacoes.py, before the top-level
exception handler: date window, login (always issued, with whatever
os.getenv returned), report requisition, artifact search (absence
raises), download, bulk extraction. -/
def exportar_transacoes_body (env : TransEnv) :
    Except PErr Unit × List TCall :=
  let t0 := [TCall.tLoginC (env.vars "MOVINGPAY_EMAIL")]
  match env.login with
  | .error e => (.error e, t0)
  | .ok () =>
    match env.solicitar with
    | .error e => (.error e, t0 ++ [.tSolicitarC])
    | .ok () =>
      match env.buscar with
      | .error e => (.error e, t0 ++ [.tSolicitarC, .tBuscarC])
      | .ok none =>
        (.error (.artifactNotFound "contabil"), t0 ++ [.tSolicitarC, .tBuscarC])
      | .ok (some _) =>
        match env.baixar with
        | .error e => (.error e, t0 ++ [.tSolicitarC, .tBuscarC, .tBaixarC])
        | .ok () =>
          match env.extrairBulk with
          | .error e => (.error e, t0 ++ [.tSolicitarC, .tBuscarC, .tBaixarC])
          | .ok () => (.ok (), t0 ++ [.tSolicitarC, .tBuscarC, .tBaixarC])


/-- Outcome of the whole exportar_transacoes.py process: the
top-level handler logs any exception at critical severity and
swallows it, so the interpreter always exits with status zero. -/
structure TransOutcome where
  result : Except PErr Unit
  loggedCritical : Bool
  exitCode : Nat
  calls : List TCall


/-- main of exportar_transacoes.py with its try-except wrapper. -/
def exportar_transacoes_main (env : TransEnv) : TransOutcome :=
  match exportar_transacoes_body env with
  | (.ok (), t) => ⟨.ok (), false, 0, t⟩
  | (.error e, t) => ⟨.error e, true, 0, t⟩


/-! ### importar_transacoes.py (single-file import flow) -/

/-- Resolved interactions of one run of importar_transacoes.py. -/
structure ITransEnv where
  vars : String → Option String
  exportDirExists : Bool
  csvNames : List String
  login : Except IErr Unit
  post : Except IErr Nat


/-- enviar_arquivo_gueno of importar_transacoes.py (no kind
parameter): success on 200 or 201, otherwise log and
raise_for_status. -/
def enviar_arquivo_trans (post : Except IErr Nat) : Except IErr Unit :=
  match post with
  | .error e => .error e
  | .ok s => if s = 200 ∨ s = 201 then .ok () else raise_for_status_imp s


/-- The body of main in importar_transacoes.py before its exception
handlers: find the newest data file, authenticate, upload it. -/
def importar_transacoes_body (env : ITransEnv) :
    Except IErr Unit × List ICall :=
  if env.exportDirExists = false then (.ok (), [])
  else
    match env.csvNames with
    | [] => (.error .fileNotFound, [])
    | _ :: _ =>
      match env.login with
      | .error e => (.error e, [.loginCall])
      | .ok () =>
        match enviar_arquivo_trans env.post with
        | .error e => (.error e, [.loginCall, .uploadCall "transactions"])
        | .ok () => (.ok (), [.loginCall, .uploadCall "transactions"])


/-- Outcome of the whole importar_transacoes.py process. -/
structure ITransOutcome where
  result : Except IErr Unit
  loggedCritical : Bool
  exitCode : Nat
  calls : List ICall


/-- main of importar_transacoes.py with its except handlers: every
failure is logged critically and swallowed, exit status zero. -/
def importar_transacoes_main (env : ITransEnv) : ITransOutcome :=
  match importar_transacoes_body env with
  | (.ok (), t) => ⟨.ok (), false, 0, t⟩
  | (.error e, t) => ⟨.error e, true, 0, t⟩


/-- The whole importar_transacoes.py process: module-level credential
check, then main. A startup failure is an uncaught EnvironmentError
and makes the interpreter exit non-zero before any HTTP call. -/
def importar_transacoes_stage (env : ITransEnv) :
    Except String Unit × List ICall :=
  match checkVars guenoRequiredVars env.vars with
  | .error v => (.error v, [])
  | .ok () => (.ok (), (importar_transacoes_body env).2)


/-! ### main.py (launcher) -/

/-- executar_script: subprocess.run with check=True raises
CalledProcessError exactly on a non-zero exit status. -/
def executar_script (exitCode : Nat) : Except Nat Unit :=
  if exitCode = 0 then .ok () else .error exitCode


/-- main of main.py: run exportar_transacoes.py, stop if it raised,
else run importar_transacoes.py. Returns the scripts launched. -/
def launcher_main (exportExit importExit : Nat) : List String :=
  match executar_script exportExit with
  | .error _ => ["exportar_transacoes.py"]
  | .ok () =>
    match executar_script importExit with
    | _ => ["exportar_transacoes.py", "importar_transacoes.py"]


/-! ### C4: startup credential gate -/

/-- The exportar_transacoes.py run used for the counterexample: no
environment variable is set at all, and the login call comes back
rejected by the platform. -/
def transEnvNoCreds : TransEnv :=
  { vars := fun _ => none
    login := .error (.httpStatus 422)
    solicitar := .ok ()
    buscar := .ok none
    baixar := .ok ()
    extrairBulk := .ok () }

/-! ### extrair_e_limpar of exportar_transacoes.py (bulk extraction) -/

/-- Outcome of the bulk extraction: every path written by extractall,
whether the archive file was removed, whether the missing-or-empty
capturas warning fired, which data file was promoted to the
destination root, and the raised error if any. -/
structure BulkExtractResult where
  written : List String
  tarRemoved : Bool
  capturasWarning : Bool
  promotedCsv : Option String
  result : Except PErr Unit

/-- extrair_e_limpar of exportar_transacoes.py: tarfile.extractall
writes every member of the archive at os.path.join of the destination
and the member name — the call passes no filter argument, so there is
no member exclusion of any kind; the archive file is then removed; a
missing or empty capturas subdirectory only logs a warning and
returns; otherwise the first extracted data file directly inside
capturas (the name check here is endswith with no lower) is moved to
the destination root and the extracted subdirectories are deleted.
No branch of the function raises a payload error. -/
def extrair_e_limpar_transacoes (destino : String) (archive : List Member) :
    BulkExtractResult :=
  let written := archive.map fun m =>
    pathJoin destino (String.intercalate "/" m.name)
  let dentroCapturas := archive.filter fun m =>
    match m.name with
    | c :: _ :: _ => c == "capturas"
    | _ => false
  if dentroCapturas.isEmpty then
    ⟨written, true, true, none, .ok ()⟩
  else
    match dentroCapturas.filter fun m =>
        match m.name with
        | [_, item] => pyEndsWith item ".csv"
        | _ => false with
    | [] => ⟨written, true, false, none, .ok ()⟩
    | m :: _ =>
      ⟨written, true, false, some (pathJoin destino (lastSeg m.name)), .ok ()⟩

/-! ### Process exit semantics of the two arquivos stages -/

/-- Exit status of the exportar_arquivos.py interpreter as a function
of the terminal state: the top-level try/except of main catches and
logs every pipeline exception (the failed states) and falls through,
so the process exits zero; only the uncaught module-level
EnvironmentError of the credential check exits non-zero. -/
def exportar_arquivos_exitCode (r : ExpResult) : Nat :=
  match r with
  | .startupError _ => 1
  | _ => 0

/-- Whether the top-level handler of exportar_arquivos.py logged the
failure at critical severity (it does so for every caught exception). -/
def exportar_arquivos_loggedCritical (r : ExpResult) : Bool :=
  match r with
  | .failed _ => true
  | _ => false

/-- Exit status of the importar_arquivos.py interpreter: every
aborted state is an exception caught and logged by one of the except
blocks of main, followed by a plain return, so the process exits
zero; only the uncaught module-level EnvironmentError exits non-zero. -/
def importar_arquivos_exitCode (r : IResult) : Nat :=
  match r with
  | .startupError _ => 1
  | _ => 0

/-- Whether importar_arquivos.py logged a critical message for the
terminal state: it does for the missing directory and for every
caught failure of the ficha, captura or outer handler. -/
def importar_arquivos_loggedCritical (r : IResult) : Bool :=
  match r with
  | .done => false
  | .startupError _ => false
  | _ => true

/-- A concrete exportar_arquivos.py run whose login is rejected, used
to witness the swallowed-failure behavior. -/
def expEnvAuthFail : ExpEnv :=
  { vars := fun _ => some "x"
    auth := .error (.httpStatus 500)
    solicitarFicha := .ok ()
    solicitarCapturas := .ok ()
    buscarFicha := .ok none
    buscarCapturas := .ok none
    baixarFicha := .ok []
    baixarCapturas := .ok []
    fichaDir := []
    capturasDir := [] }

/-- A concrete importar_arquivos.py run whose reference upload comes
back with HTTP 500, used to witness the swallowed-failure behavior. -/
def impEnvUsersFail : ImportEnv :=
  { vars := fun _ => some "x"
    exportDirExists := true
    csvFiles := [["exportacoes", "capturas", "cap.csv"],
                 ["exportacoes", "ficha_cadastral", "ficha.csv"]]
    login := .ok ()
    postUsers := .error (.httpStatus 500)
    postTransactions := .ok 201
    listing := .ok []
    postVerify := .ok 200 }

/-- C7: on the first business day of the week the window is
today minus three through today minus one, on every other weekday it is
yesterday through yesterday, and the start never exceeds the end. -/
theorem c7_reference_window (hoje : Int) :
    (pyWeekday hoje = 0 →
        obter_datas_referencia hoje = (hoje - 3, hoje - 1))
  ∧ (pyWeekday hoje ≠ 0 →
        obter_datas_referencia hoje = (hoje - 1, hoje - 1))
  ∧ (obter_datas_referencia hoje).1 ≤ (obter_datas_referencia hoje).2 := by
  refine ⟨fun h => by simp [obter_datas_referencia, h],
          fun h => by simp [obter_datas_referencia, h], ?_⟩
  by_cases h : pyWeekday hoje = 0
  · simp only [obter_datas_referencia, h, if_pos]; omega
  · simp [obter_datas_referencia, h]


/-- Witness for C7 at a concrete Monday (ordinal 1) and Tuesday (ordinal 2). -/
theorem c7_reference_window_witness :
    obter_datas_referencia 1 = (-2, 0) ∧ obter_datas_referencia 2 = (1, 1) := by
  constructor
  · exact (c7_reference_window 1).1 (by decide)
  · exact (c7_reference_window 2).2.1 (by decide)


theorem lastSeg_mem : ∀ (l : List String), l ≠ [] → lastSeg l ∈ l := by
  intro l
  induction l with
  | nil => intro h; exact absurd rfl h
  | cons a t ih =>
    intro _
    cases t with
    | nil => simp [lastSeg]
    | cons b r =>
      have hm := ih (by simp)
      exact List.mem_cons_of_mem a (by simpa [lastSeg] using hm)


theorem isCsvName_ne_empty {b : String} (h : isCsvName b = true) : b ≠ "" := by
  intro hb; subst hb; exact absurd h (by decide)


theorem isCsvName_ne_dot {b : String} (h : isCsvName b = true) : b ≠ "." := by
  intro hb; subst hb; exact absurd h (by decide)


theorem isCsvName_ne_dotdot {b : String} (h : isCsvName b = true) : b ≠ ".." := by
  intro hb; subst hb; exact absurd h (by decide)


theorem pyStartsWith_slash_false {b : String} (h : ('/' : Char) ∉ b.data) :
    pyStartsWith b "/" = false := by
  unfold pyStartsWith
  cases hb : b.data with
  | nil => rfl
  | cons c t =>
    have hc : ('/' : Char) ≠ c := by
      rw [hb] at h
      exact fun hcc => h (hcc ▸ List.mem_cons_self _ _)
    simp [List.isPrefixOf, hc]


theorem pathJoin_eq {dir b : String} (h1 : dir ≠ "")
    (h2 : pyEndsWith dir "/" = false) (h3 : ('/' : Char) ∉ b.data) :
    pathJoin dir b = dir ++ "/" ++ b := by
  simp [pathJoin, pyStartsWith_slash_false h3, h1, h2]


theorem safe_head_facts {archive : List Member} {m : Member} {ms : List Member}
    (h : safeCsvMembers archive = m :: ms) :
    m ∈ archive ∧ safeCsvMember m = true := by
  have hm : m ∈ safeCsvMembers archive := by
    rw [h]; exact List.mem_cons_self _ _
  exact List.mem_filter.mp hm


theorem safeCsvMember_parts {m : Member} (h : safeCsvMember m = true) :
    isCsvName (lastSeg m.name) = true ∧ isAbsName m.name = false
      ∧ (normpathSplit m.name).contains ".." = false := by
  simp only [safeCsvMember, Bool.and_eq_true, Bool.not_eq_true'] at h
  exact ⟨h.1.1, h.1.2, h.2⟩


theorem safe_name_ne_nil {m : Member} (h : safeCsvMember m = true) :
    m.name ≠ [] := by
  intro hn
  have := (safeCsvMember_parts h).1
  rw [hn] at this
  exact absurd this (by decide)


theorem csvEntries_purge_mid (d : DirState) (p : FileEntry → Bool) :
    csvEntries ((purgeCsv d).filter p) = [] := by
  unfold csvEntries purgeCsv
  rw [List.filter_filter, List.filter_filter]
  refine List.filter_eq_nil_iff.mpr ?_
  intro f _
  cases h : isCsvName f.name <;> simp [h]


theorem csvEntries_write (d : DirState) (b c : String)
    (hb : isCsvName b = true) :
    csvEntries (writeFile (purgeCsv d) b c) = [⟨b, c⟩] := by
  unfold writeFile
  rw [csvEntries, List.filter_append]
  rw [show ((purgeCsv d).filter fun f => !(f.name == b)).filter
        (fun f => isCsvName f.name) = csvEntries ((purgeCsv d).filter
        fun f => !(f.name == b)) from rfl]
  rw [csvEntries_purge_mid]
  simp [hb]


/-- In every branch of the bulk extractor the written paths are the
join of the destination with each member name, no member excluded,
and the function returns without raising. -/
theorem bulk_always_writes (destino : String) (archive : List Member) :
    (extrair_e_limpar_transacoes destino archive).written
      = archive.map (fun m => pathJoin destino (String.intercalate "/" m.name))
  ∧ (extrair_e_limpar_transacoes destino archive).result = .ok () := by
  constructor <;>
  · simp only [extrair_e_limpar_transacoes]
    split
    · rfl
    · split <;> rfl

/-- Counterexample to C1: the claim quantifies over every extraction
operation, but the extractor of exportar_transacoes.py filters
nothing. On an archive whose only member carries the traversal name
dot-dot slash evil.csv — a member the safe filter would exclude — the
bulk extractor still writes it, at exportacoes/../evil.csv, a path
whose normalization is evil.csv and thus escapes the destination
directory, and it raises no payload error. -/
theorem c1_counterexample :
    safeCsvMember ⟨["..", "evil.csv"], "evil"⟩ = false
  ∧ (extrair_e_limpar_transacoes "exportacoes"
        [⟨["..", "evil.csv"], "evil"⟩]).written = ["exportacoes/../evil.csv"]
  ∧ (extrair_e_limpar_transacoes "exportacoes"
        [⟨["..", "evil.csv"], "evil"⟩]).result = .ok ()
  ∧ normpathSplit ["exportacoes", "..", "evil.csv"] = ["evil.csv"]
  ∧ (normpathSplit ["exportacoes", "..", "evil.csv"]).head? ≠ some "exportacoes" := by
  exact ⟨by decide, rfl, rfl, by decide, by decide⟩

/-- C1 as amended: the single-target extractor of exportar_arquivos.py
guarantees path safety — members with an absolute name or a
parent-directory segment in their normalized name are never
candidates; with no safe member it raises and writes nothing; with a
safe member it writes exactly one file directly under the destination
directory, named by the base name of the member, with no error —
while the bulk extractor of exportar_transacoes.py applies no member
filter at all: it writes every member of every archive at the join of
the destination and the full member name and never raises a payload
error. -/
theorem c1_extraction_path_safety (destino : String) (archive : List Member)
    (dir : DirState) (hdest1 : destino ≠ "")
    (hdest2 : pyEndsWith destino "/" = false)
    (hvalid : ∀ m ∈ archive, validMember m) :
    (∀ m ∈ archive,
        (isAbsName m.name = true ∨ (normpathSplit m.name).contains ".." = true) →
        m ∉ safeCsvMembers archive)
  ∧ (safeCsvMembers archive = [] →
        (extrair_e_limpar destino archive dir).result = .error .noValidPayload ∧
        (extrair_e_limpar destino archive dir).written = [])
  ∧ (∀ m ms, safeCsvMembers archive = m :: ms →
        (extrair_e_limpar destino archive dir).result = .ok () ∧
        (extrair_e_limpar destino archive dir).written
          = [destino ++ "/" ++ lastSeg m.name] ∧
        insideDir destino (destino ++ "/" ++ lastSeg m.name))
  ∧ (∀ (archiveB : List Member) (m : Member), m ∈ archiveB →
        pathJoin destino (String.intercalate "/" m.name)
          ∈ (extrair_e_limpar_transacoes destino archiveB).written
      ∧ (extrair_e_limpar_transacoes destino archiveB).result = .ok ()) := by
  refine ⟨?_, ?_, ?_, ?_⟩
  · intro m _ hbad hmem
    have hpred := (List.mem_filter.mp hmem).2
    have hparts := safeCsvMember_parts hpred
    rcases hbad with hb | hb
    · rw [hparts.2.1] at hb; exact absurd hb (by decide)
    · rw [hparts.2.2] at hb; exact absurd hb (by decide)
  · intro h
    simp [extrair_e_limpar, h]
  · intro m ms h
    have hfacts := safe_head_facts h
    have hparts := safeCsvMember_parts hfacts.2
    have hcsv := hparts.1
    have hnn : m.name ≠ [] := safe_name_ne_nil hfacts.2
    have hnoslash : ('/' : Char) ∉ (lastSeg m.name).data :=
      hvalid m hfacts.1 (lastSeg m.name) (lastSeg_mem m.name hnn)
    have hjoin := pathJoin_eq hdest1 hdest2 hnoslash
    refine ⟨by simp [extrair_e_limpar, h], ?_, ?_⟩
    · simp [extrair_e_limpar, h, hjoin]
    · exact ⟨lastSeg m.name, rfl, hnoslash, isCsvName_ne_empty hcsv,
        isCsvName_ne_dot hcsv, isCsvName_ne_dotdot hcsv⟩
  · intro archiveB m hm
    have hb := bulk_always_writes destino archiveB
    refine ⟨?_, hb.2⟩
    rw [hb.1]
    exact List.mem_map_of_mem _ hm


/-- Witness for the amended C1: the archive of the end-to-end
scenario, holding relatorio.csv and a traversal member, extracts
exactly destino/relatorio.csv under the safe extractor and the
traversal member is not a candidate there; under the bulk extractor
the same traversal member is written at destino/../evil.csv. -/
theorem c1_extraction_path_safety_witness :
    (Member.mk ["..", "evil.csv"] "evil")
        ∉ safeCsvMembers [⟨["relatorio.csv"], "dados"⟩, ⟨["..", "evil.csv"], "evil"⟩]
  ∧ (extrair_e_limpar "destino"
        [⟨["relatorio.csv"], "dados"⟩, ⟨["..", "evil.csv"], "evil"⟩] []).result = .ok ()
  ∧ (extrair_e_limpar "destino"
        [⟨["relatorio.csv"], "dados"⟩, ⟨["..", "evil.csv"], "evil"⟩] []).written
      = ["destino/relatorio.csv"]
  ∧ insideDir "destino" ("destino" ++ "/" ++ "relatorio.csv")
  ∧ pathJoin "destino" (String.intercalate "/" ["..", "evil.csv"])
      ∈ (extrair_e_limpar_transacoes "destino"
          [⟨["relatorio.csv"], "dados"⟩, ⟨["..", "evil.csv"], "evil"⟩]).written := by
  have h := c1_extraction_path_safety "destino"
    [⟨["relatorio.csv"], "dados"⟩, ⟨["..", "evil.csv"], "evil"⟩] []
    (by decide) (by decide) (by decide)
  refine ⟨h.1 ⟨["..", "evil.csv"], "evil"⟩ (by simp) (Or.inr (by decide)),
    ?_, ?_, ?_, ?_⟩
  · exact (h.2.2.1 ⟨["relatorio.csv"], "dados"⟩ [] (by decide)).1
  · have := (h.2.2.1 ⟨["relatorio.csv"], "dados"⟩ [] (by decide)).2.1
    simpa using this
  · exact (h.2.2.1 ⟨["relatorio.csv"], "dados"⟩ [] (by decide)).2.2
  · exact (h.2.2.2 _ ⟨["..", "evil.csv"], "evil"⟩ (by simp)).1


/-- C8: two successive successful extractions into the same directory
leave exactly one file of the target extension, holding the content of
the second archive only (and already after the first run exactly one). -/
theorem c8_purge_then_write_idempotent (destino : String)
    (a1 a2 : List Member) (d0 : DirState)
    (m1 : Member) (ms1 : List Member) (m2 : Member) (ms2 : List Member)
    (h1 : safeCsvMembers a1 = m1 :: ms1)
    (h2 : safeCsvMembers a2 = m2 :: ms2) :
    (extrair_e_limpar destino a1 d0).result = .ok ()
  ∧ (extrair_e_limpar destino a2 (extrair_e_limpar destino a1 d0).dir).result = .ok ()
  ∧ csvEntries (extrair_e_limpar destino a1 d0).dir
      = [⟨lastSeg m1.name, m1.content⟩]
  ∧ csvEntries (extrair_e_limpar destino a2 (extrair_e_limpar destino a1 d0).dir).dir
      = [⟨lastSeg m2.name, m2.content⟩] := by
  have hcsv1 := (safeCsvMember_parts (safe_head_facts h1).2).1
  have hcsv2 := (safeCsvMember_parts (safe_head_facts h2).2).1
  refine ⟨by simp [extrair_e_limpar, h1], by simp [extrair_e_limpar, h1, h2], ?_, ?_⟩
  · simp only [extrair_e_limpar, h1]
    exact csvEntries_write d0 _ m1.content hcsv1
  · simp only [extrair_e_limpar, h1, h2]
    exact csvEntries_write _ _ m2.content hcsv2


/-- Witness for C8 at two concrete archives over a directory holding a
stale data file and an unrelated file. -/
theorem c8_purge_then_write_idempotent_witness :
    csvEntries (extrair_e_limpar "exportacoes/capturas"
        [⟨["b.csv"], "segundo"⟩]
        (extrair_e_limpar "exportacoes/capturas" [⟨["a.csv"], "primeiro"⟩]
          [⟨"velho.csv", "antigo"⟩, ⟨"nota.txt", "n"⟩]).dir).dir
      = [⟨"b.csv", "segundo"⟩] :=
  (c8_purge_then_write_idempotent "exportacoes/capturas"
    [⟨["a.csv"], "primeiro"⟩] [⟨["b.csv"], "segundo"⟩]
    [⟨"velho.csv", "antigo"⟩, ⟨"nota.txt", "n"⟩]
    ⟨["a.csv"], "primeiro"⟩ [] ⟨["b.csv"], "segundo"⟩ []
    (by decide) (by decide)).2.2.2


/-- C10: when the archive holds no safe member of the target
extension, the purge has already happened: the operation raises, the
directory retains no file of the target extension, every data file it
previously held is gone, and the archive file is not removed. -/
theorem c10_purge_precedes_inspection (destino : String)
    (archive : List Member) (dir : DirState)
    (h : safeCsvMembers archive = []) :
    (extrair_e_limpar destino archive dir).result = .error .noValidPayload
  ∧ (extrair_e_limpar destino archive dir).dir = purgeCsv dir
  ∧ (extrair_e_limpar destino archive dir).tarRemoved = false
  ∧ csvEntries (extrair_e_limpar destino archive dir).dir = []
  ∧ (∀ f ∈ dir, isCsvName f.name = true →
        f ∉ (extrair_e_limpar destino archive dir).dir) := by
  refine ⟨by simp [extrair_e_limpar, h], by simp [extrair_e_limpar, h],
    by simp [extrair_e_limpar, h], ?_, ?_⟩
  · have : csvEntries (purgeCsv dir) = [] := by
      have := csvEntries_purge_mid dir (fun _ => true)
      simpa using this
    simpa [extrair_e_limpar, h] using this
  · intro f _ hf hmem
    simp only [extrair_e_limpar, h] at hmem
    have := (List.mem_filter.mp hmem).2
    rw [hf] at this
    exact absurd this (by decide)


/-- Witness for C10: an archive whose only member is a traversal path
leaves the directory with zero data files and the archive in place. -/
theorem c10_purge_precedes_inspection_witness :
    (extrair_e_limpar "exportacoes/capturas" [⟨["..", "evil.csv"], "e"⟩]
        [⟨"velho.csv", "antigo"⟩]).result = .error .noValidPayload
  ∧ (extrair_e_limpar "exportacoes/capturas" [⟨["..", "evil.csv"], "e"⟩]
        [⟨"velho.csv", "antigo"⟩]).tarRemoved = false
  ∧ csvEntries (extrair_e_limpar "exportacoes/capturas"
        [⟨["..", "evil.csv"], "e"⟩] [⟨"velho.csv", "antigo"⟩]).dir = [] := by
  have h := c10_purge_precedes_inspection "exportacoes/capturas"
    [⟨["..", "evil.csv"], "e"⟩] [⟨"velho.csv", "antigo"⟩] (by decide)
  exact ⟨h.1, h.2.2.1, h.2.2.2.1⟩


/-- Counterexample to C3: a first response of HTTP 500 is retried by
the wrapper (the call goes on to a second attempt and returns the 200
of that attempt), because HTTPError is a RequestException; and the
direct call of exportar_transacoes.py performs a single attempt on a
timeout instead of three. -/
theorem c3_counterexample :
    requestWithRetry
        (fun n => if n = 0 then .response 500 else .response 200)
      = ⟨.ok 200, 2, 5⟩
  ∧ ¬ (requestWithRetry
        (fun n => if n = 0 then .response 500 else .response 200)).attempts = 1
  ∧ plainRequestCall (fun _ => .timeout)
      = ⟨.error (.raised .timeoutExc), 1, 0⟩
  ∧ ¬ (plainRequestCall (fun _ => .timeout)).attempts = 3 := by
  refine ⟨rfl, ?_, rfl, ?_⟩ <;> decide


/-- C3 as amended: for the wrapped operations, every failed attempt,
transient network failure and HTTP status error alike, is retried with
a fixed wait of 5 between attempts, at most 3 attempts are performed,
and after three failed attempts the failure propagates as a RetryError
holding the last exception; the direct calls of exportar_transacoes.py
always perform exactly one attempt. -/
theorem c3_retry_on_any_request_exception (o : Nat → NetOutcome) :
    (requestWithRetry o).attempts ≤ 3
  ∧ (requestWithRetry o).totalWait = 5 * ((requestWithRetry o).attempts - 1)
  ∧ (∀ e1, attemptRequest (o 0) = .error e1 → 2 ≤ (requestWithRetry o).attempts)
  ∧ (∀ e1 e2 e3, attemptRequest (o 0) = .error e1 →
      attemptRequest (o 1) = .error e2 → attemptRequest (o 2) = .error e3 →
      requestWithRetry o = ⟨.error (.retryExhausted e3), 3, 10⟩)
  ∧ (∀ s, attemptRequest (o 0) = .ok s → requestWithRetry o = ⟨.ok s, 1, 0⟩)
  ∧ (plainRequestCall o).attempts = 1 := by
  cases h0 : attemptRequest (o 0) with
  | ok s =>
    refine ⟨?_, ?_, ?_, ?_, ?_, ?_⟩ <;>
      simp [requestWithRetry, plainRequestCall, h0]
  | error e1 =>
    cases h1 : attemptRequest (o 1) with
    | ok s =>
      refine ⟨?_, ?_, ?_, ?_, ?_, ?_⟩ <;>
        simp [requestWithRetry, plainRequestCall, isRequestException, h0, h1]
    | error e2 =>
      cases h2 : attemptRequest (o 2) with
      | ok s =>
        refine ⟨?_, ?_, ?_, ?_, ?_, ?_⟩ <;>
          simp [requestWithRetry, plainRequestCall, isRequestException, h0, h1, h2]
      | error e3 =>
        refine ⟨?_, ?_, ?_, ?_, ?_, ?_⟩ <;>
          simp [requestWithRetry, plainRequestCall, isRequestException, h0, h1, h2]


/-- Witness for the amended C3: three straight timeouts exhaust the
three attempts with two fixed waits and surface a RetryError. -/
theorem c3_retry_on_any_request_exception_witness :
    requestWithRetry (fun _ => .timeout)
      = ⟨.error (.retryExhausted .timeoutExc), 3, 10⟩
  ∧ (plainRequestCall (fun _ => .timeout)).attempts = 1 := by
  have h := c3_retry_on_any_request_exception (fun _ => .timeout)
  exact ⟨h.2.2.2.1 .timeoutExc .timeoutExc .timeoutExc rfl rfl rfl, h.2.2.2.2.2⟩


/-- C2: when the reference-file upload resolves to an HTTP status
failure, the run aborts with that status error and the transactional
upload operation is never invoked. -/
theorem c2_reference_upload_gate (env : ImportEnv) (c : Nat)
    (hdir : env.exportDirExists = true)
    (hlen : 2 ≤ env.csvFiles.length)
    (hlogin : env.login = .ok ())
    (husers : env.postUsers = .error (.httpStatus c)) :
    (importar_arquivos_main env).1 = .abortedFicha (.httpStatus c)
  ∧ ((importar_arquivos_main env).2.count (ICall.uploadCall "transactions")) = 0 := by
  have hnl : ¬ env.csvFiles.length < 2 := Nat.not_lt.mpr hlen
  have henv : enviar_arquivo_gueno "users" env.postUsers
      = .error (.httpStatus c) := by
    simp [enviar_arquivo_gueno, husers]
  constructor <;>
    simp [importar_arquivos_main, hdir, hnl, hlogin, henv, List.count_cons]


/-- Witness for C2: the scenario of the specification, an HTTP 500 on
the reference upload. -/
theorem c2_reference_upload_gate_witness :
    (importar_arquivos_main
      { vars := fun _ => some "x"
        exportDirExists := true
        csvFiles := [["exportacoes", "capturas", "cap.csv"],
                     ["exportacoes", "ficha_cadastral", "ficha.csv"]]
        login := .ok ()
        postUsers := .error (.httpStatus 500)
        postTransactions := .ok 201
        listing := .ok []
        postVerify := .ok 200 }).1 = .abortedFicha (.httpStatus 500)
  ∧ ((importar_arquivos_main
      { vars := fun _ => some "x"
        exportDirExists := true
        csvFiles := [["exportacoes", "capturas", "cap.csv"],
                     ["exportacoes", "ficha_cadastral", "ficha.csv"]]
        login := .ok ()
        postUsers := .error (.httpStatus 500)
        postTransactions := .ok 201
        listing := .ok []
        postVerify := .ok 200 }).2.count (ICall.uploadCall "transactions")) = 0 :=
  c2_reference_upload_gate _ 500 rfl (by decide) rfl rfl


/-- C5: a transactional upload acknowledged with 200 or 201 whose file
name is absent from the recent-imports listing aborts the run with the
missing-upload error, and the verification operation is never invoked. -/
theorem c5_missing_upload_result (env : ImportEnv) (s : Nat)
    (items : List ImportItem)
    (hdir : env.exportDirExists = true)
    (hlen : 2 ≤ env.csvFiles.length)
    (hlogin : env.login = .ok ())
    (husers : enviar_arquivo_gueno "users" env.postUsers = .ok ())
    (htrans : env.postTransactions = .ok s)
    (hs : s = 200 ∨ s = 201)
    (hlist : env.listing = .ok items)
    (hmiss : ∀ it ∈ items, it.originalName ≠ lastSeg (primeiroCsv env.csvFiles)) :
    (importar_arquivos_main env).1
      = .abortedCaptura (.missingUpload (lastSeg (primeiroCsv env.csvFiles)))
  ∧ ((importar_arquivos_main env).2.count ICall.verifyCall) = 0 := by
  have hnl : ¬ env.csvFiles.length < 2 := Nat.not_lt.mpr hlen
  have henvt : enviar_arquivo_gueno "transactions" env.postTransactions
      = .ok () := by
    simp [enviar_arquivo_gueno, htrans, hs]
  have hfind : items.find?
      (fun it => it.originalName == lastSeg (primeiroCsv env.csvFiles)) = none := by
    refine List.find?_eq_none.mpr ?_
    intro it hit
    simpa using hmiss it hit
  have hobter : obter_item_id_gueno (lastSeg (primeiroCsv env.csvFiles))
      env.listing = .error (.missingUpload (lastSeg (primeiroCsv env.csvFiles))) := by
    simp [obter_item_id_gueno, hlist, hfind]
  constructor <;>
    simp [importar_arquivos_main, hdir, hnl, hlogin, husers, henvt, hobter,
      List.count_cons]


/-- Witness for C5: a 201 upload acknowledgment and a listing holding
only an unrelated file name. -/
theorem c5_missing_upload_result_witness :
    (importar_arquivos_main
      { vars := fun _ => some "x"
        exportDirExists := true
        csvFiles := [["exportacoes", "capturas", "cap.csv"],
                     ["exportacoes", "ficha_cadastral", "ficha.csv"]]
        login := .ok ()
        postUsers := .ok 200
        postTransactions := .ok 201
        listing := .ok [⟨"outro.csv", "abc123"⟩]
        postVerify := .ok 200 }).1
      = .abortedCaptura (.missingUpload "cap.csv")
  ∧ ((importar_arquivos_main
      { vars := fun _ => some "x"
        exportDirExists := true
        csvFiles := [["exportacoes", "capturas", "cap.csv"],
                     ["exportacoes", "ficha_cadastral", "ficha.csv"]]
        login := .ok ()
        postUsers := .ok 200
        postTransactions := .ok 201
        listing := .ok [⟨"outro.csv", "abc123"⟩]
        postVerify := .ok 200 }).2.count ICall.verifyCall) = 0 := by
  have h := c5_missing_upload_result
    { vars := fun _ => some "x"
      exportDirExists := true
      csvFiles := [["exportacoes", "capturas", "cap.csv"],
                   ["exportacoes", "ficha_cadastral", "ficha.csv"]]
      login := .ok ()
      postUsers := .ok 200
      postTransactions := .ok 201
      listing := .ok [⟨"outro.csv", "abc123"⟩]
      postVerify := .ok 200 }
    201 [⟨"outro.csv", "abc123"⟩] rfl (by decide) rfl rfl rfl
    (Or.inr rfl) rfl (by decide)
  exact h


/-- C6: in the dual flow, a missing registration artifact only logs a
warning and the run still reaches the capture branch, while a missing
capture artifact fails the run with the artifact-not-found error,
whatever combination of listing outcomes occurred. -/
theorem c6_asymmetric_artifact_absence (env : ExpEnv)
    (hAuth : env.auth = .ok ())
    (hSF : env.solicitarFicha = .ok ())
    (hSC : env.solicitarCapturas = .ok ()) :
    (env.buscarFicha = .ok none →
        ECall.warnFichaMissingC ∈ (exportar_arquivos_main env).calls
      ∧ ECall.buscarCapturasC ∈ (exportar_arquivos_main env).calls)
  ∧ (fichaBranchOk env → env.buscarCapturas = .ok none →
        (exportar_arquivos_main env).result = .failed (.artifactNotFound "capturas")) := by
  constructor
  · intro hFicha
    refine ⟨?_, ?_⟩ <;>
    · simp only [exportar_arquivos_main, hAuth, hSF, hSC, hFicha,
        exportCapturasBranch]
      cases hc : env.buscarCapturas with
      | error e => simp
      | ok oa =>
        cases oa with
        | none => simp
        | some a =>
          cases hb : env.baixarCapturas with
          | error e => simp
          | ok archive =>
            cases hr : (extrair_e_limpar CAPTURAS_DIR archive env.capturasDir).result with
            | error e => simp [hr]
            | ok u => simp [hr]
  · intro hOk hCapt
    rcases hOk with hFicha | ⟨a, archive, hFicha, hBaixar, hExtr⟩
    · simp [exportar_arquivos_main, hAuth, hSF, hSC, hFicha,
        exportCapturasBranch, hCapt]
    · simp [exportar_arquivos_main, hAuth, hSF, hSC, hFicha, hBaixar,
        hExtr, exportCapturasBranch, hCapt]


/-- Witness for C6: both artifacts absent; the run warns for the
registration file, reaches the capture branch, and fails with the
artifact-not-found error. -/
theorem c6_asymmetric_artifact_absence_witness :
    ECall.warnFichaMissingC ∈ (exportar_arquivos_main
      { vars := fun _ => some "x"
        auth := .ok ()
        solicitarFicha := .ok ()
        solicitarCapturas := .ok ()
        buscarFicha := .ok none
        buscarCapturas := .ok none
        baixarFicha := .ok []
        baixarCapturas := .ok []
        fichaDir := []
        capturasDir := [] }).calls
  ∧ ECall.buscarCapturasC ∈ (exportar_arquivos_main
      { vars := fun _ => some "x"
        auth := .ok ()
        solicitarFicha := .ok ()
        solicitarCapturas := .ok ()
        buscarFicha := .ok none
        buscarCapturas := .ok none
        baixarFicha := .ok []
        baixarCapturas := .ok []
        fichaDir := []
        capturasDir := [] }).calls
  ∧ (exportar_arquivos_main
      { vars := fun _ => some "x"
        auth := .ok ()
        solicitarFicha := .ok ()
        solicitarCapturas := .ok ()
        buscarFicha := .ok none
        buscarCapturas := .ok none
        baixarFicha := .ok []
        baixarCapturas := .ok []
        fichaDir := []
        capturasDir := [] }).result = .failed (.artifactNotFound "capturas") := by
  have h := c6_asymmetric_artifact_absence
    { vars := fun _ => some "x"
      auth := .ok ()
      solicitarFicha := .ok ()
      solicitarCapturas := .ok ()
      buscarFicha := .ok none
      buscarCapturas := .ok none
      baixarFicha := .ok []
      baixarCapturas := .ok []
      fichaDir := []
      capturasDir := [] } rfl rfl rfl
  exact ⟨(h.1 rfl).1, (h.1 rfl).2, h.2 (Or.inl rfl) rfl⟩


/-- Counterexample to C4: the exportar_transacoes.py stage has no
startup credential check. With MOVINGPAY_EMAIL unset it still issues
the login HTTP request (one network call, carrying an absent
credential) instead of terminating with a configuration error before
any network activity. -/
theorem c4_counterexample :
    isMissingVar (transEnvNoCreds.vars "MOVINGPAY_EMAIL") = true
  ∧ (exportar_transacoes_main transEnvNoCreds).calls = [TCall.tLoginC none]
  ∧ ¬ (exportar_transacoes_main transEnvNoCreds).calls = []
  ∧ (exportar_transacoes_main transEnvNoCreds).result
      = .error (.httpStatus 422) := by
  refine ⟨rfl, rfl, ?_, rfl⟩
  intro h
  exact absurd h (by decide)


/-- C4 as amended: the module-level loops of importar_arquivos.py,
importar_transacoes.py and exportar_arquivos.py make any missing or
empty required credential a fatal startup error raised before any
network call (zero HTTP invocations); exportar_transacoes.py has no
such check and always issues the login call, embedding whatever
os.getenv returned for MOVINGPAY_EMAIL. -/
theorem c4_startup_gate_amended :
    (∀ env : ImportEnv, (∃ v ∈ guenoRequiredVars, isMissingVar (env.vars v) = true) →
        ∃ v, importar_arquivos_stage env = (.startupError v, []))
  ∧ (∀ env : ITransEnv, (∃ v ∈ guenoRequiredVars, isMissingVar (env.vars v) = true) →
        ∃ v, importar_transacoes_stage env = (.error v, []))
  ∧ (∀ env : ExpEnv, (∃ v ∈ movingpayRequiredVars, isMissingVar (env.vars v) = true) →
        ∃ v, exportar_arquivos_stage env
          = ⟨.startupError v, [], env.fichaDir, env.capturasDir⟩)
  ∧ (∀ env : TransEnv,
        TCall.tLoginC (env.vars "MOVINGPAY_EMAIL")
          ∈ (exportar_transacoes_main env).calls) := by
  have hfind : ∀ (req : List String) (vars : String → Option String),
      (∃ v ∈ req, isMissingVar (vars v) = true) →
      ∃ v, checkVars req vars = .error v := by
    intro req vars hex
    cases hc : req.find? (fun v => isMissingVar (vars v)) with
    | some v => exact ⟨v, by simp [checkVars, hc]⟩
    | none =>
      rcases hex with ⟨v, hv, hmiss⟩
      exact absurd hmiss (by simpa using List.find?_eq_none.mp hc v hv)
  refine ⟨?_, ?_, ?_, ?_⟩
  · intro env hex
    rcases hfind guenoRequiredVars env.vars hex with ⟨v, hv⟩
    exact ⟨v, by simp [importar_arquivos_stage, hv]⟩
  · intro env hex
    rcases hfind guenoRequiredVars env.vars hex with ⟨v, hv⟩
    exact ⟨v, by simp [importar_transacoes_stage, hv]⟩
  · intro env hex
    rcases hfind movingpayRequiredVars env.vars hex with ⟨v, hv⟩
    exact ⟨v, by simp [exportar_arquivos_stage, hv]⟩
  · intro env
    unfold exportar_transacoes_main exportar_transacoes_body
    cases env.login with
    | error e => simp
    | ok u =>
      cases u
      cases env.solicitar with
      | error e => simp
      | ok u =>
        cases u
        cases env.buscar with
        | error e => simp
        | ok oa =>
          cases oa with
          | none => simp
          | some a =>
            cases env.baixar with
            | error e => simp
            | ok u =>
              cases u
              cases env.extrairBulk with
              | error e => simp
              | ok u => cases u; simp


/-- Witness for the amended C4: with GUENO_PASSWORD set to the empty
string, the importar_arquivos.py stage stops at startup with zero
calls; and the no-credential exportar_transacoes.py run still issues
its login call. -/
theorem c4_startup_gate_amended_witness :
    (∃ v, importar_arquivos_stage
      { vars := fun n => if n = "GUENO_PASSWORD" then some "" else some "x"
        exportDirExists := true
        csvFiles := []
        login := .ok ()
        postUsers := .ok 200
        postTransactions := .ok 201
        listing := .ok []
        postVerify := .ok 200 } = (.startupError v, []))
  ∧ TCall.tLoginC none ∈ (exportar_transacoes_main transEnvNoCreds).calls := by
  constructor
  · exact c4_startup_gate_amended.1 _ ⟨"GUENO_PASSWORD", by decide, by decide⟩
  · exact c4_startup_gate_amended.2.2.2 transEnvNoCreds


/-! ### C9: swallowed failures and the launcher -/

/-- C9: in each of the four stages, any failure raised inside the
main pipeline function after startup is caught at the top level,
logged at critical severity and swallowed, so the stage process exits
with status zero; consequently the launcher, which only halts the
remaining stages on a non-zero exit status, still runs the import
stage after a failed export stage. -/
theorem c9_failures_swallowed_launcher_continues :
    (∀ (env : TransEnv) (e : PErr) t,
        exportar_transacoes_body env = (.error e, t) →
        (exportar_transacoes_main env).exitCode = 0
      ∧ (exportar_transacoes_main env).loggedCritical = true
      ∧ ∀ importExit, launcher_main (exportar_transacoes_main env).exitCode importExit
          = ["exportar_transacoes.py", "importar_transacoes.py"])
  ∧ (∀ (env : ITransEnv) (e : IErr) t,
        importar_transacoes_body env = (.error e, t) →
        (importar_transacoes_main env).exitCode = 0
      ∧ (importar_transacoes_main env).loggedCritical = true)
  ∧ (∀ (env : ExpEnv) (e : PErr),
        (exportar_arquivos_main env).result = .failed e →
        exportar_arquivos_exitCode (exportar_arquivos_main env).result = 0
      ∧ exportar_arquivos_loggedCritical (exportar_arquivos_main env).result = true)
  ∧ (∀ (env : ImportEnv) (e : IErr),
        ((importar_arquivos_main env).1 = .abortedOuter e
          ∨ (importar_arquivos_main env).1 = .abortedFicha e
          ∨ (importar_arquivos_main env).1 = .abortedCaptura e) →
        importar_arquivos_exitCode (importar_arquivos_main env).1 = 0
      ∧ importar_arquivos_loggedCritical (importar_arquivos_main env).1 = true) := by
  refine ⟨?_, ?_, ?_, ?_⟩
  · intro env e t h
    refine ⟨?_, ?_, ?_⟩ <;>
      simp [exportar_transacoes_main, h, launcher_main, executar_script]
  · intro env e t h
    constructor <;> simp [importar_transacoes_main, h]
  · intro env e h
    rw [h]
    exact ⟨rfl, rfl⟩
  · intro env e h
    rcases h with h | h | h <;> rw [h] <;> exact ⟨rfl, rfl⟩


/-- Witness for C9: a failed exportar_transacoes.py run exits zero
and the launcher still reaches the import script; a failed
exportar_arquivos.py run (login rejected) and a failed
importar_arquivos.py run (reference upload rejected) also exit zero
after logging critically. -/
theorem c9_failures_swallowed_launcher_continues_witness :
    (exportar_transacoes_main transEnvNoCreds).exitCode = 0
  ∧ launcher_main (exportar_transacoes_main transEnvNoCreds).exitCode 0
      = ["exportar_transacoes.py", "importar_transacoes.py"]
  ∧ exportar_arquivos_exitCode (exportar_arquivos_main expEnvAuthFail).result = 0
  ∧ exportar_arquivos_loggedCritical (exportar_arquivos_main expEnvAuthFail).result
      = true
  ∧ importar_arquivos_exitCode (importar_arquivos_main impEnvUsersFail).1 = 0
  ∧ importar_arquivos_loggedCritical (importar_arquivos_main impEnvUsersFail).1
      = true := by
  have h := c9_failures_swallowed_launcher_continues.1 transEnvNoCreds
    (.httpStatus 422) [TCall.tLoginC none] rfl
  have hexp := c9_failures_swallowed_launcher_continues.2.2.1 expEnvAuthFail
    (.httpStatus 500) rfl
  have himp := c9_failures_swallowed_launcher_continues.2.2.2 impEnvUsersFail
    (.httpStatus 500) (Or.inr (Or.inl (by decide)))
  exact ⟨h.1, h.2.2 0, hexp.1, hexp.2, himp.1, himp.2⟩

end MovingpayGueno
